import Mathlib

/-!
Verification of the domain-testing suite's fingerprinting engine, heuristic
analyzers and scan dispatchers, shallowly embedded from the JavaScript and
shell sources.  Network I/O is abstracted: a fetched page is a body string
plus a header map (list of key/value pairs, keys lowercase as the HTTP
client delivers them), and probe outcomes are explicit inputs.
-/

namespace DomainSuite

/-- ASCII lower-casing of a character, as the case-insensitive (`/i`) regex
flag behaves on the ASCII-only patterns of the rule table. -/
def lowerChar (c : Char) : Char :=
  if 65 ≤ c.toNat ∧ c.toNat ≤ 90 then Char.ofNat (c.toNat + 32) else c

/-- `prefixOf p l` : is `p` a prefix of `l`? -/
def prefixOf : List Char → List Char → Bool
  | [], _ => true
  | _ :: _, [] => false
  | p :: ps, h :: hs => p == h && prefixOf ps hs

/-- `infixOf p l` : does `p` occur contiguously inside `l`? -/
def infixOf : List Char → List Char → Bool
  | pat, [] => pat.isEmpty
  | pat, h :: hs => prefixOf pat (h :: hs) || infixOf pat hs

/-- Case-insensitive substring test: does `pat` occur in `hay` ignoring ASCII
case?  This is what each `/lit1|lit2/i.test(s)` in the rule table computes,
since every pattern there is an alternation of literals. -/
def containsCI (hay pat : String) : Bool :=
  infixOf (pat.data.map lowerChar) (hay.data.map lowerChar)

/-- Header map of a fetched response: key/value pairs.  The HTTP client
normalises keys to lowercase before the analyzers see them. -/
def Headers := List (String × String)

/-- Plain property lookup `headers[k]` on the header object: the value of the
first pair whose key equals `k`, if any. -/
def headerLookup (hs : Headers) (k : String) : Option String :=
  (hs.find? (fun p => p.1 == k)).map (·.2)

/-- `headers[k.toLowerCase()]` used as a truthiness test: the key is present
and carries a non-empty value (`undefined` and `""` are falsy). -/
def keyPresent (hs : Headers) (k : String) : Bool :=
  match headerLookup hs (String.mk (k.data.map lowerChar)) with
  | some v => !(v == "")
  | none => false

/-- One fingerprint rule of `analyzeTech` (`tech_scanner`): a technology
name, a category, an optional body pattern, an optional header-value pattern
(each an alternation of case-insensitive literals, exactly what the source's
regexes denote), and an optional header key whose mere presence matches. -/
structure Rule where
  name : String
  cat : String
  html : List String := []
  header : List String := []
  header_key : Option String := none
deriving DecidableEq, Repr

/-- A detected technology: `{ name: check.name, category: check.cat }`. -/
structure TechSignal where
  name : String
  category : String
deriving DecidableEq, Repr

/-- The `checks` rule table of `analyzeTech`, transcribed rule by rule from
the source (regex alternations become literal lists; `\.` and `\/` are the
literal characters). -/
def checks : List Rule := [
  { name := "WordPress", cat := "CMS", html := ["wp-content", "wp-includes"] },
  { name := "Joomla", cat := "CMS", html := ["content=\"Joomla"] },
  { name := "Drupal", cat := "CMS", html := ["Drupal"] },
  { name := "Shopify", cat := "E-commerce", html := ["shopify.com"], header := ["x-shopify"] },
  { name := "Squarespace", cat := "CMS", html := ["static1.squarespace.com"] },
  { name := "Wix", cat := "CMS", html := ["wix.com"] },
  { name := "Webflow", cat := "CMS", html := ["data-wf-site"] },
  { name := "React", cat := "Frontend", html := ["react"] },
  { name := "Next.js", cat := "Frontend", html := ["_next/static"], header := ["x-nextjs-cache"] },
  { name := "Vue.js", cat := "Frontend", html := ["vue.js", "vue@"] },
  { name := "Nuxt.js", cat := "Frontend", html := ["__NUXT__"] },
  { name := "Angular", cat := "Frontend", html := ["ng-version"] },
  { name := "Tailwind CSS", cat := "CSS", html := ["tailwind"] },
  { name := "Bootstrap", cat := "CSS", html := ["bootstrap"] },
  { name := "jQuery", cat := "JS Library", html := ["jquery"] },
  { name := "Cloudflare", cat := "CDN/Security", header := ["cf-ray"], header_key := some "server" },
  { name := "Vercel", cat := "Hosting", header := ["x-vercel-id"] },
  { name := "Netlify", cat := "Hosting", header := ["x-nf-request-id"] },
  { name := "Akamai", cat := "CDN", header := ["x-akamai"] },
  { name := "Google Tag Manager", cat := "Tag Manager", html := ["googletagmanager.com"] },
  { name := "Google Analytics", cat := "Analytics", html := ["google-analytics.com", "UA-", "G-"] },
  { name := "Facebook Pixel", cat := "Analytics", html := ["facebook.net/en_US/fbevents.js"] },
  { name := "Hotjar", cat := "Analytics", html := ["hotjar"] },
  { name := "HubSpot", cat := "CRM", html := ["hs-scripts.com"] }
]

/-- The Cloudflare rule of the table: a `cf-ray` header-value pattern plus
the `server` header key whose presence alone matches. -/
def cloudflareRule : Rule :=
  { name := "Cloudflare", cat := "CDN/Security", header := ["cf-ray"],
    header_key := some "server" }

/-- `check.html && check.html.test(html)`: the rule's body pattern (if any)
matches the body. -/
def bodyFound (r : Rule) (body : String) : Bool :=
  r.html.any (containsCI body)

/-- `check.header && Object.values(headers).some(h => check.header.test(h))`
or `check.header_key && headers[check.header_key.toLowerCase()]`: the rule
matches through the headers. -/
def headerFound (r : Rule) (hs : Headers) : Bool :=
  (hs.map (·.2)).any (fun v => r.header.any (containsCI v)) ||
  (match r.header_key with
   | some k => keyPresent hs k
   | none => false)

/-- The `found` flag computed by the `checks.forEach` loop for one rule. -/
def ruleFound (r : Rule) (body : String) (hs : Headers) : Bool :=
  bodyFound r body || headerFound r hs

/-- The `results` array after the `forEach` loop: one signal per matched
rule, in table order. -/
def matchedSignals (body : String) (hs : Headers) : List TechSignal :=
  (checks.filter (fun r => ruleFound r body hs)).map fun r =>
    { name := r.name, category := r.cat }

/-- One step of `new Map(results.map(item => [item.name, item]))`: inserting
`item` keyed by its name keeps the position of the first insertion of that
name but replaces the stored value; a fresh name goes to the back. -/
def mapInsert (acc : List TechSignal) (item : TechSignal) : List TechSignal :=
  if acc.any (fun x => x.name == item.name) then
    acc.map (fun x => if x.name == item.name then item else x)
  else acc ++ [item]

/-- `[...new Map(results.map(item => [item.name, item])).values()]`: the
deduplication-by-name of the result list. -/
def dedupByName (l : List TechSignal) : List TechSignal :=
  l.foldl mapInsert []

/-- The rule-evaluation part of `analyzeTech` (`tech_scanner`), as a pure
function of the fetched body and headers.  Totality of this definition is
the no-raise part of the contract. -/
def analyzeTech (body : String) (hs : Headers) : List TechSignal :=
  dedupByName (matchedSignals body hs)

/-! ### Carbon analyzer (`advanced_scanner.js`) -/

/-- `Number.prototype.toFixed(4)` on a non-negative value: round to four
decimal places, halves away from zero, read back as a number (the string is
immediately coerced back by the numeric comparisons of `gradeCarbon`). -/
def toFixed4 (q : ℚ) : ℚ :=
  ((Int.floor (q * 10000 + 1 / 2) : ℤ) : ℚ) / 10000

/-- `calculateCarbon(bytes)`: grams of CO2 for the transferred bytes,
`gb * 0.81 * 1000` with `gb = bytes / 2^30`, rounded by `toFixed(4)`. -/
def calculateCarbon (bytes : ℚ) : ℚ :=
  let gb := bytes / (1024 * 1024 * 1024)
  let co2g := gb * (81 / 100) * 1000
  toFixed4 co2g

/-- The grades returned by `gradeCarbon` (the chalk colouring around the
letter is presentation only). -/
inductive CarbonGrade
  | APlus
  | A
  | B
  | C
  | D
deriving DecidableEq, Repr

/-- `gradeCarbon(co2)`: grade thresholds on the grams value. -/
def gradeCarbon (co2 : ℚ) : CarbonGrade :=
  if co2 < 1 / 10 then .APlus
  else if co2 < 1 / 2 then .A
  else if co2 < 1 then .B
  else if co2 < 5 / 2 then .C
  else .D

/-- `htmlSize + (resourceCount * 15 * 1024)` of `analyzeCarbon`, where
`htmlSize` is the declared `content-length` or the actual body length and
`resourceCount` counts `<img>`, `<script>` and stylesheet `<link>`
elements. -/
def estimatedTotalBytes (htmlSize resourceCount : ℕ) : ℕ :=
  htmlSize + resourceCount * 15 * 1024

/-- The numeric core of `analyzeCarbon`: from the HTML size and the counted
resources to the reported CO2 grams and grade. -/
def analyzeCarbon (htmlSize resourceCount : ℕ) : ℚ × CarbonGrade :=
  let bytes := estimatedTotalBytes htmlSize resourceCount
  let co2 := calculateCarbon (bytes : ℚ)
  (co2, gradeCarbon co2)

/-! ### Accessibility analyzer (`advanced_scanner.js`) -/

/-- The four issue strings `analyzeA11y` can push, one per check, carrying
the element counts interpolated into the message. -/
inductive A11yIssue
  | imagesNoAlt (n : ℕ)
  | emptyButtons (n : ℕ)
  | inputsNoLabel (n : ℕ)
  | missingLang
deriving DecidableEq, Repr

/-- The result of `analyzeA11y` as a function of what the selector queries
count on the parsed document: images without `alt`, empty buttons, inputs
without any label heuristic, and the `lang` attribute of `<html>` (`none`
when absent).  The score is `Math.max(0, 100 - issues.length * 15)`. -/
def analyzeA11y (imagesNoAlt emptyButtons inputsNoLabel : ℕ)
    (lang : Option String) : ℤ × List A11yIssue :=
  let issues : List A11yIssue :=
    (if imagesNoAlt > 0 then [.imagesNoAlt imagesNoAlt] else []) ++
    (if emptyButtons > 0 then [.emptyButtons emptyButtons] else []) ++
    (if inputsNoLabel > 0 then [.inputsNoLabel inputsNoLabel] else []) ++
    (if (match lang with | some v => v == "" | none => true) then
      [.missingLang] else [])
  (max 0 (100 - (issues.length : ℤ) * 15), issues)

/-! ### SEO analyzer (`seo_scanner.js`) -/

/-- The fields `analyzeSEO` extracts from the parsed document (empty string
models an absent attribute, as the source's `|| ''` defaults do). -/
structure SeoData where
  title : String
  description : String
  canonical : String
  h1 : List String
  ogTitle : String := ""
  ogImage : String := ""
  viewport : String
  robots : String := "index, follow"
deriving DecidableEq, Repr

/-- The insight messages `analyzeSEO` can push, one constructor per `push`
site in the source. -/
inductive SeoInsight
  | missingTitle
  | titleShort
  | titleLong
  | missingDescription
  | descriptionShort
  | descriptionLong
  | missingH1
  | multipleH1 (n : ℕ)
  | missingViewport
  | missingCanonical
deriving DecidableEq, Repr

/-- Severity of an insight: `chalk.red` messages are critical, the
`chalk.yellow` ones warnings, except the canonical hint whose message text
is suggestion-level. -/
inductive Severity
  | critical
  | warning
  | suggestion
deriving DecidableEq, Repr

def insightSeverity : SeoInsight → Severity
  | .missingTitle => .critical
  | .titleShort => .warning
  | .titleLong => .warning
  | .missingDescription => .critical
  | .descriptionShort => .warning
  | .descriptionLong => .warning
  | .missingH1 => .critical
  | .multipleH1 _ => .warning
  | .missingViewport => .critical
  | .missingCanonical => .suggestion

/-- The `insights` array built by `analyzeSEO` from the extracted data, in
push order. -/
def seoInsights (d : SeoData) : List SeoInsight :=
  (if d.title == "" then [.missingTitle]
   else if d.title.length < 30 then [.titleShort]
   else if d.title.length > 70 then [.titleLong]
   else []) ++
  (if d.description == "" then [.missingDescription]
   else if d.description.length < 50 then [.descriptionShort]
   else if d.description.length > 160 then [.descriptionLong]
   else []) ++
  (if d.h1.length == 0 then [.missingH1] else []) ++
  (if d.h1.length > 1 then [.multipleH1 d.h1.length] else []) ++
  (if d.viewport == "" then [.missingViewport] else []) ++
  (if d.canonical == "" then [.missingCanonical] else [])

/-! ### Analyzer failure propagation (`seo_scanner.js`, `advanced_scanner.js`,
`scan_wrapper.js`) -/

/-- `analyzeSEO` from the outcome of its primary fetch: a successful fetch
yields the data and insights; a failed fetch makes the analyzer re-throw
`new Error("SEO Analysis failed: " + cause)`. -/
def analyzeSEOFrom (fetch : Except String SeoData) :
    Except String (SeoData × List SeoInsight) :=
  match fetch with
  | .ok d => .ok (d, seoInsights d)
  | .error e => .error ("SEO Analysis failed: " ++ e)

/-- `analyzeCarbon` likewise re-throws
`new Error("Carbon analysis failed: " + cause)` when its fetch fails. -/
def analyzeCarbonFrom (fetch : Except String (ℕ × ℕ)) :
    Except String (ℚ × CarbonGrade) :=
  match fetch with
  | .ok (htmlSize, resources) => .ok (analyzeCarbon htmlSize resources)
  | .error e => .error ("Carbon analysis failed: " ++ e)

/-- What one wrapper run (`runSEO`, `runCarbon`, ... in `scan_wrapper.js`)
contributes to the printed report: a success block, or the failure line
printed by its `catch` (spinner fail + error message).  The wrapper never
re-throws. -/
inductive ReportLine
  | seoOk (data : SeoData) (insights : List SeoInsight)
  | carbonOk (co2 : ℚ) (grade : CarbonGrade)
  | failed (msg : String)
deriving Repr

/-- `runSEO()` of `scan_wrapper.js`: awaits the analyzer inside
`try/catch`; a thrown error becomes a rendered failure line. -/
def runSEO (fetch : Except String SeoData) : ReportLine :=
  match analyzeSEOFrom fetch with
  | .ok (d, ins) => .seoOk d ins
  | .error m => .failed m

/-- `runCarbon()` of `scan_wrapper.js`, same catch discipline. -/
def runCarbon (fetch : Except String (ℕ × ℕ)) : ReportLine :=
  match analyzeCarbonFrom fetch with
  | .ok (co2, g) => .carbonOk co2 g
  | .error m => .failed m

/-! ### Link-health analyzer (`advanced_scanner.js`) -/

/-- `href` filtering and resolution inside the `$('a[href]').each` loop:
`mailto:`, `tel:` and fragment links are dropped, root-relative links are
resolved against the target origin, other `http(s)` absolute links kept,
anything else dropped. -/
def strStartsWith (s p : String) : Bool :=
  prefixOf p.data s.data

def resolveHref (domain href : String) : Option String :=
  if href == "" then none
  else if strStartsWith href "mailto:" || strStartsWith href "tel:"
      || strStartsWith href "#" then none
  else if strStartsWith href "/" then some ("https://" ++ domain ++ href)
  else if strStartsWith href "http" then some href
  else none

/-- The `links` array collected from the anchors of the page. -/
def extractLinks (domain : String) (hrefs : List String) : List String :=
  hrefs.filterMap (resolveHref domain)

/-- `[...new Set(links)]`: deduplication keeping first occurrences in
insertion order. -/
def setDedup (l : List String) : List String :=
  l.foldl (fun acc x => if acc.contains x then acc else acc ++ [x]) []

/-- `uniqueLinks = [...new Set(links)].slice(0, 10)`: the candidates the
analyzer actually probes. -/
def checkedLinks (domain : String) (hrefs : List String) : List String :=
  (setDedup (extractLinks domain hrefs)).take 10

/-- What `axios.head(link)` left in the `catch` for one candidate: nothing
(the probe resolved), or an error with an optional response status
(`err.response.status`) and an optional error code (`err.code`). -/
inductive HeadOutcome
  | ok
  | err (response : Option ℕ) (code : Option String)
deriving DecidableEq, Repr

/-- The status recorded for a broken link: the numeric HTTP status, or the
literal `"Dead"`. -/
inductive LinkStatus
  | httpStatus (n : ℕ)
  | dead
deriving DecidableEq, Repr

/-- The classification in the probe's `catch` block:
`err.response && err.response.status >= 400` records the status;
otherwise `err.code === ENOTFOUND || err.code === ECONNREFUSED` records
`"Dead"`; any other failure records nothing. -/
def classifyErr (response : Option ℕ) (code : Option String) :
    Option LinkStatus :=
  if (match response with | some s => decide (s ≥ 400) | none => false) then
    match response with
    | some s => some (.httpStatus s)
    | none => none
  else if code == some "ENOTFOUND" || code == some "ECONNREFUSED" then
    some .dead
  else none

/-- The `broken` list of `analyzeLinks`, given the outcome of each HEAD
probe.  The concurrent probes settle in arbitrary order; the list is
modelled in candidate order, which carries the same membership. -/
def brokenLinks (domain : String) (hrefs : List String)
    (probe : String → HeadOutcome) : List (String × LinkStatus) :=
  (checkedLinks domain hrefs).filterMap fun link =>
    match probe link with
    | .ok => none
    | .err response code => (classifyErr response code).map fun st => (link, st)

/-- The result `{ checked, broken }` of `analyzeLinks`. -/
def analyzeLinks (domain : String) (hrefs : List String)
    (probe : String → HeadOutcome) : ℕ × List (String × LinkStatus) :=
  ((checkedLinks domain hrefs).length, brokenLinks domain hrefs probe)

/-! ### Scan-type dispatchers (`scan_wrapper.js` and the shell script) -/

/-- Every task either dispatcher can run. -/
inductive ScanTask
  | tech
  | seo
  | carbon
  | a11y
  | links
  | wpScan
  | dns
  | ssl
  | ping
  | rbl
  | full
deriving DecidableEq, Repr

/-- The `switch (mode)` at the bottom of `scan_wrapper.js`: `tech` is both
a named case and the `default`. -/
def wrapperDispatch (mode : String) : ScanTask :=
  if mode == "seo" then .seo
  else if mode == "carbon" then .carbon
  else if mode == "a11y" then .a11y
  else if mode == "links" then .links
  else if mode == "wp-scan" then .wpScan
  else .tech

/-- The argument-mode `case "$2"` of the shell script: nine named tasks,
`*)` falls through to `task_full`. -/
def shellDispatch (mode : String) : ScanTask :=
  if mode == "tech" then .tech
  else if mode == "ping" then .ping
  else if mode == "dns" then .dns
  else if mode == "ssl" then .ssl
  else if mode == "seo" then .seo
  else if mode == "rbl" then .rbl
  else if mode == "carbon" then .carbon
  else if mode == "a11y" then .a11y
  else if mode == "links" then .links
  else .full

/-! ### Properties of the Map-based deduplication -/

theorem names_mapInsert_of_any {acc : List TechSignal} {item : TechSignal}
    (h : acc.any (fun x => x.name == item.name) = true) :
    (mapInsert acc item).map (·.name) = acc.map (·.name) := by
  unfold mapInsert
  rw [if_pos h, List.map_map]
  apply List.map_congr_left
  intro a _
  by_cases hb : a.name == item.name
  · simp only [Function.comp_apply, if_pos hb]
    exact (beq_iff_eq.mp hb).symm
  · simp only [Function.comp_apply, if_neg hb]

theorem mem_names_mapInsert (acc : List TechSignal) (item : TechSignal) (n : String) :
    n ∈ (mapInsert acc item).map (·.name) ↔
      n ∈ acc.map (·.name) ∨ n = item.name := by
  by_cases h : acc.any (fun x => x.name == item.name) = true
  · rw [names_mapInsert_of_any h]
    have hmem : item.name ∈ acc.map (·.name) := by
      simp only [List.any_eq_true, beq_iff_eq] at h
      obtain ⟨x, hx, hxe⟩ := h
      exact hxe ▸ List.mem_map_of_mem (·.name) hx
    constructor
    · exact Or.inl
    · rintro (hl | rfl)
      · exact hl
      · exact hmem
  · unfold mapInsert
    rw [if_neg h]
    simp

theorem mem_of_mem_mapInsert {acc : List TechSignal} {item x : TechSignal}
    (h : x ∈ mapInsert acc item) : x ∈ acc ∨ x = item := by
  unfold mapInsert at h
  by_cases hc : acc.any (fun y => y.name == item.name) = true
  · rw [if_pos hc] at h
    obtain ⟨a, ha, hax⟩ := List.mem_map.mp h
    by_cases hb : a.name == item.name
    · rw [if_pos hb] at hax
      exact Or.inr hax.symm
    · rw [if_neg hb] at hax
      exact Or.inl (hax ▸ ha)
  · rw [if_neg hc] at h
    rcases List.mem_append.mp h with h1 | h2
    · exact Or.inl h1
    · exact Or.inr (List.mem_singleton.mp h2)

theorem nodup_names_mapInsert {acc : List TechSignal} (item : TechSignal)
    (h : (acc.map (·.name)).Nodup) :
    ((mapInsert acc item).map (·.name)).Nodup := by
  by_cases hc : acc.any (fun x => x.name == item.name) = true
  · rwa [names_mapInsert_of_any hc]
  · unfold mapInsert
    rw [if_neg hc, List.map_append]
    rw [List.nodup_append]
    refine ⟨h, by simp, ?_⟩
    intro a ha hb
    simp only [List.map_cons, List.map_nil, List.mem_singleton] at hb
    subst hb
    rw [List.any_eq_true] at hc
    simp only [beq_iff_eq] at hc
    obtain ⟨x, hx, hxe⟩ := List.mem_map.mp ha
    exact hc ⟨x, hx, hxe⟩

theorem mem_names_dedup (l : List TechSignal) :
    ∀ (acc : List TechSignal) (n : String),
      (n ∈ (l.foldl mapInsert acc).map (·.name)) ↔
        n ∈ acc.map (·.name) ∨ n ∈ l.map (·.name) := by
  induction l with
  | nil => simp
  | cons x xs ih =>
    intro acc n
    rw [List.foldl_cons, ih, mem_names_mapInsert]
    simp only [List.map_cons, List.mem_cons]
    tauto

theorem mem_of_mem_dedup (l : List TechSignal) :
    ∀ (acc : List TechSignal) (x : TechSignal),
      x ∈ l.foldl mapInsert acc → x ∈ acc ∨ x ∈ l := by
  induction l with
  | nil => simp
  | cons y ys ih =>
    intro acc x hx
    rw [List.foldl_cons] at hx
    rcases ih (mapInsert acc y) x hx with h1 | h2
    · rcases mem_of_mem_mapInsert h1 with ha | rfl
      · exact Or.inl ha
      · exact Or.inr (List.mem_cons_self _ _)
    · exact Or.inr (List.mem_cons_of_mem _ h2)

theorem nodup_names_dedup (l : List TechSignal) :
    ∀ acc : List TechSignal, (acc.map (·.name)).Nodup →
      ((l.foldl mapInsert acc).map (·.name)).Nodup := by
  induction l with
  | nil => exact fun _ h => h
  | cons y ys ih =>
    intro acc hacc
    rw [List.foldl_cons]
    exact ih _ (nodup_names_mapInsert y hacc)

/-! ### Characterisation of `analyzeTech`'s output -/

theorem mem_matchedSignals {body : String} {hs : Headers} {s : TechSignal} :
    s ∈ matchedSignals body hs ↔
      ∃ r ∈ checks, ruleFound r body hs = true ∧ s = ⟨r.name, r.cat⟩ := by
  unfold matchedSignals
  constructor
  · intro h
    obtain ⟨r, hrf, hre⟩ := List.mem_map.mp h
    obtain ⟨hr, hf⟩ := List.mem_filter.mp hrf
    exact ⟨r, hr, by simpa using hf, hre.symm⟩
  · rintro ⟨r, hr, hf, rfl⟩
    exact List.mem_map_of_mem _ (List.mem_filter.mpr ⟨hr, by simpa using hf⟩)

theorem checks_names_nodup : (checks.map (·.name)).Nodup := by decide

theorem mem_analyzeTech_sub {body : String} {hs : Headers} {s : TechSignal}
    (h : s ∈ analyzeTech body hs) : s ∈ matchedSignals body hs := by
  unfold analyzeTech dedupByName at h
  rcases mem_of_mem_dedup _ [] s h with h1 | h2
  · exact absurd h1 (List.not_mem_nil s)
  · exact h2

/-- A matched rule always contributes a signal with its name and category to
the deduplicated output. -/
theorem signal_of_ruleFound {body : String} {hs : Headers} {r : Rule}
    (hr : r ∈ checks) (hf : ruleFound r body hs = true) :
    ∃ s ∈ analyzeTech body hs, s.name = r.name ∧ s.category = r.cat := by
  have hmem : (⟨r.name, r.cat⟩ : TechSignal) ∈ matchedSignals body hs :=
    mem_matchedSignals.mpr ⟨r, hr, hf, rfl⟩
  have hname : r.name ∈ (analyzeTech body hs).map (·.name) := by
    unfold analyzeTech dedupByName
    rw [mem_names_dedup]
    exact Or.inr (by simpa using List.mem_map_of_mem (·.name) hmem)
  obtain ⟨s, hs_out, hn⟩ := List.mem_map.mp hname
  obtain ⟨r', hr', _, hs_eq⟩ := mem_matchedSignals.mp (mem_analyzeTech_sub hs_out)
  have hrr : r' = r := by
    apply List.inj_on_of_nodup_map checks_names_nodup hr' hr
    have : s.name = r'.name := by rw [hs_eq]
    simpa [← this] using hn
  refine ⟨s, hs_out, hn, ?_⟩
  rw [hs_eq, hrr]

/-- Every emitted signal traces back to a matched rule of the table. -/
theorem ruleFound_of_signal {body : String} {hs : Headers} {s : TechSignal}
    (h : s ∈ analyzeTech body hs) :
    ∃ r ∈ checks, ruleFound r body hs = true ∧ s.name = r.name ∧ s.category = r.cat := by
  obtain ⟨r, hr, hf, rfl⟩ := mem_matchedSignals.mp (mem_analyzeTech_sub h)
  exact ⟨r, hr, hf, rfl, rfl⟩

/-- A rule can only match an absent header map through its body pattern. -/
theorem headerFound_nil (r : Rule) : headerFound r [] = false := by
  unfold headerFound keyPresent headerLookup
  cases r.header_key <;> simp

/-- The probe `catch` records nothing when the response status (if any) is
below 400 and the error code is neither `ENOTFOUND` nor `ECONNREFUSED`. -/
theorem classifyErr_none {resp : Option ℕ} {code : Option String}
    (hlt : ∀ s, resp = some s → s < 400)
    (hnf : code ≠ some "ENOTFOUND") (hcr : code ≠ some "ECONNREFUSED") :
    classifyErr resp code = none := by
  unfold classifyErr
  cases resp with
  | none =>
    rw [if_neg (by simp)]
    rw [if_neg]
    simp only [Bool.or_eq_true, beq_iff_eq, not_or]
    exact ⟨hnf, hcr⟩
  | some s =>
    have hs : s < 400 := hlt s rfl
    rw [if_neg (by simpa using Nat.not_le.mpr hs)]
    rw [if_neg]
    simp only [Bool.or_eq_true, beq_iff_eq, not_or]
    exact ⟨hnf, hcr⟩

/-! ### Claim theorems -/

/-- C1: for every body string and every header map, the rule evaluation of
`analyzeTech` is a total function (it never raises), and no two entries of
its output share a technology name. -/
theorem C1_analyzeTech_nodup_names (body : String) (hs : Headers) :
    ((analyzeTech body hs).map (·.name)).Nodup :=
  nodup_names_dedup _ [] (by simp)

/-- C2: all fingerprint rules are evaluated independently with no
short-circuit: every matched rule of the table contributes a signal with
its name and category, every emitted signal comes from a matched rule, and
a body matching both the WordPress and the React patterns yields both
signals. -/
theorem C2_analyzeTech_independent_rules :
    (∀ (body : String) (hs : Headers), ∀ r ∈ checks,
        ruleFound r body hs = true →
        ∃ s ∈ analyzeTech body hs, s.name = r.name ∧ s.category = r.cat)
    ∧ (∀ (body : String) (hs : Headers), ∀ s ∈ analyzeTech body hs,
        ∃ r ∈ checks, ruleFound r body hs = true
          ∧ s.name = r.name ∧ s.category = r.cat)
    ∧ TechSignal.mk "WordPress" "CMS" ∈ analyzeTech "wp-content React" []
    ∧ TechSignal.mk "React" "Frontend" ∈ analyzeTech "wp-content React" [] :=
  ⟨fun _ _ _ hr hf => signal_of_ruleFound hr hf,
   fun _ _ _ hmem => ruleFound_of_signal hmem,
   by decide, by decide⟩

/-- C2 witness: instantiated at the WordPress rule on a concrete body. -/
theorem C2_analyzeTech_independent_rules_witness :
    ∃ s ∈ analyzeTech "wp-content React" [],
      s.name = "WordPress" ∧ s.category = "CMS" :=
  C2_analyzeTech_independent_rules.1 "wp-content React" []
    { name := "WordPress", cat := "CMS", html := ["wp-content", "wp-includes"] }
    (by decide) (by decide)

/-- C9: with an empty body every signal of `analyzeTech` is header-derived,
and with an absent header map every signal is body-derived; both inputs are
tolerated (the evaluation is total, hence never raises). -/
theorem C9_empty_body_or_headers :
    (∀ (hs : Headers), ∀ s ∈ analyzeTech "" hs,
        ∃ r ∈ checks, headerFound r hs = true
          ∧ s.name = r.name ∧ s.category = r.cat)
    ∧ (∀ (body : String), ∀ s ∈ analyzeTech body [],
        ∃ r ∈ checks, bodyFound r body = true
          ∧ s.name = r.name ∧ s.category = r.cat) := by
  constructor
  · intro hs s hmem
    obtain ⟨r, hr, hf, hn, hc⟩ := ruleFound_of_signal hmem
    refine ⟨r, hr, ?_, hn, hc⟩
    have hball : ∀ r ∈ checks, bodyFound r "" = false := by decide
    unfold ruleFound at hf
    rw [hball r hr] at hf
    simpa using hf
  · intro body s hmem
    obtain ⟨r, hr, hf, hn, hc⟩ := ruleFound_of_signal hmem
    refine ⟨r, hr, ?_, hn, hc⟩
    unfold ruleFound at hf
    rw [headerFound_nil r] at hf
    simpa using hf

/-- C9 witness: a header value matching the Shopify header pattern on an
empty body, and a WordPress body with no headers.  (The engine tests header
patterns against header values, so the pattern must occur in the value.) -/
theorem C9_empty_body_or_headers_witness :
    (∃ r ∈ checks, headerFound r [("x-shopify-stage", "x-shopify")] = true
        ∧ (TechSignal.mk "Shopify" "E-commerce").name = r.name
        ∧ (TechSignal.mk "Shopify" "E-commerce").category = r.cat)
    ∧ (∃ r ∈ checks, bodyFound r "wp-content" = true
        ∧ (TechSignal.mk "WordPress" "CMS").name = r.name
        ∧ (TechSignal.mk "WordPress" "CMS").category = r.cat) :=
  ⟨C9_empty_body_or_headers.1 [("x-shopify-stage", "x-shopify")]
      (TechSignal.mk "Shopify" "E-commerce") (by decide),
   C9_empty_body_or_headers.2 "wp-content"
      (TechSignal.mk "WordPress" "CMS") (by decide)⟩

/-- C10 counterexample: the claim promises the Cloudflare signal for any
value of the `server` header whatsoever, but an empty value is falsy in the
`headers[check.header_key]` truthiness test, so nothing is detected. -/
theorem C10_counterexample_empty_server_value :
    headerLookup [("server", "")] "server" = some ""
      ∧ TechSignal.mk "Cloudflare" "CDN/Security"
          ∉ analyzeTech "" [("server", "")] := by
  constructor
  · rfl
  · decide

/-- C10 (amended): a `server` header with any non-empty value makes the
Cloudflare rule match by key presence, even without any `cf-ray` header. -/
theorem C10_server_presence_detects_cloudflare :
    ∀ (body : String) (hs : Headers) (v : String),
      headerLookup hs "server" = some v → v ≠ "" →
      ∃ s ∈ analyzeTech body hs,
        s.name = "Cloudflare" ∧ s.category = "CDN/Security" := by
  intro body hs v hv hne
  have hcf : cloudflareRule ∈ checks := by decide
  have hkp : keyPresent hs "server" = true := by
    unfold keyPresent
    have hmk : String.mk ("server".data.map lowerChar) = "server" := by decide
    rw [hmk, hv]
    simpa using hne
  have hrule : ruleFound cloudflareRule body hs = true := by
    simp [ruleFound, headerFound, cloudflareRule, hkp]
  exact signal_of_ruleFound hcf hrule

/-- C10 witness: `server: nginx` alone triggers the Cloudflare signal. -/
theorem C10_server_presence_detects_cloudflare_witness :
    ∃ s ∈ analyzeTech "" [("server", "nginx")],
      s.name = "Cloudflare" ∧ s.category = "CDN/Security" :=
  C10_server_presence_detects_cloudflare "" [("server", "nginx")] "nginx"
    (by decide) (by decide)

/-- C3: at most the first 10 unique candidates in document order are
checked (exactly 10 when there are 12); a checked link failing with a
response status ≥ 400 is broken with that status; one failing with a
DNS-resolution or connection-refused code is broken with status `Dead`;
any other failure is excluded from the broken list. -/
theorem C3_link_health :
    (∀ (domain : String) (hrefs : List String),
        (checkedLinks domain hrefs).length ≤ 10)
    ∧ (∀ (domain : String) (hrefs : List String),
        (setDedup (extractLinks domain hrefs)).length = 12 →
        (checkedLinks domain hrefs).length = 10)
    ∧ (∀ (domain : String) (hrefs : List String)
        (probe : String → HeadOutcome) (link : String)
        (code : Option String) (s : ℕ),
        link ∈ checkedLinks domain hrefs →
        probe link = .err (some s) code → 400 ≤ s →
        (link, LinkStatus.httpStatus s) ∈ brokenLinks domain hrefs probe)
    ∧ (∀ (domain : String) (hrefs : List String)
        (probe : String → HeadOutcome) (link : String) (c : String),
        link ∈ checkedLinks domain hrefs →
        probe link = .err none (some c) →
        (c = "ENOTFOUND" ∨ c = "ECONNREFUSED") →
        (link, LinkStatus.dead) ∈ brokenLinks domain hrefs probe)
    ∧ (∀ (domain : String) (hrefs : List String)
        (probe : String → HeadOutcome) (link : String)
        (resp : Option ℕ) (code : Option String),
        probe link = .err resp code →
        (∀ s, resp = some s → s < 400) →
        code ≠ some "ENOTFOUND" → code ≠ some "ECONNREFUSED" →
        ∀ st, (link, st) ∉ brokenLinks domain hrefs probe) := by
  refine ⟨?_, ?_, ?_, ?_, ?_⟩
  · intro domain hrefs
    unfold checkedLinks
    rw [List.length_take]
    exact Nat.min_le_left _ _
  · intro domain hrefs h
    unfold checkedLinks
    rw [List.length_take, h]
    decide
  · intro domain hrefs probe link code s hmem hprobe hge
    apply List.mem_filterMap.mpr
    refine ⟨link, hmem, ?_⟩
    rw [hprobe]
    simp [classifyErr, hge]
  · intro domain hrefs probe link c hmem hprobe hcode
    apply List.mem_filterMap.mpr
    refine ⟨link, hmem, ?_⟩
    rw [hprobe]
    rcases hcode with rfl | rfl <;> simp [classifyErr]
  · intro domain hrefs probe link resp code hprobe hlt hnf hcr st hmem
    obtain ⟨a, _, ha⟩ := List.mem_filterMap.mp hmem
    revert ha
    cases ho : probe a with
    | ok =>
      intro ha
      simp at ha
    | err r c =>
      intro ha
      simp only [] at ha
      obtain ⟨st', hcl, hpair⟩ := Option.map_eq_some'.mp ha
      have hal : a = link := congrArg Prod.fst hpair
      have hst : st' = st := congrArg Prod.snd hpair
      subst hal
      injection hprobe.symm.trans ho with h1 h2
      subst h1
      subst h2
      rw [classifyErr_none hlt hnf hcr] at hcl
      cases hcl

/-- C3 witness: twelve root-relative candidates; the first returns 404, the
second fails DNS resolution, the third times out, the rest succeed. -/
theorem C3_link_health_witness :
    ((checkedLinks "example.com"
        ["/a", "/b", "/c", "/d", "/e", "/f", "/g", "/h", "/i", "/j", "/k", "/l"]).length = 10)
    ∧ ("https://example.com/a", LinkStatus.httpStatus 404) ∈ brokenLinks "example.com"
        ["/a", "/b", "/c", "/d", "/e", "/f", "/g", "/h", "/i", "/j", "/k", "/l"]
        (fun l => if l == "https://example.com/a" then .err (some 404) none
          else if l == "https://example.com/b" then .err none (some "ENOTFOUND")
          else if l == "https://example.com/c" then .err none (some "ECONNABORTED")
          else .ok)
    ∧ ("https://example.com/b", LinkStatus.dead) ∈ brokenLinks "example.com"
        ["/a", "/b", "/c", "/d", "/e", "/f", "/g", "/h", "/i", "/j", "/k", "/l"]
        (fun l => if l == "https://example.com/a" then .err (some 404) none
          else if l == "https://example.com/b" then .err none (some "ENOTFOUND")
          else if l == "https://example.com/c" then .err none (some "ECONNABORTED")
          else .ok)
    ∧ ("https://example.com/c", LinkStatus.dead) ∉ brokenLinks "example.com"
        ["/a", "/b", "/c", "/d", "/e", "/f", "/g", "/h", "/i", "/j", "/k", "/l"]
        (fun l => if l == "https://example.com/a" then .err (some 404) none
          else if l == "https://example.com/b" then .err none (some "ENOTFOUND")
          else if l == "https://example.com/c" then .err none (some "ECONNABORTED")
          else .ok) :=
  ⟨C3_link_health.2.1 "example.com" _ (by decide),
   C3_link_health.2.2.1 "example.com" _ _ _ none 404 (by decide) (by decide)
     (by decide),
   C3_link_health.2.2.2.1 "example.com" _ _ _ "ENOTFOUND" (by decide)
     (by decide) (Or.inl rfl),
   C3_link_health.2.2.2.2 "example.com" _ _ _ none (some "ECONNABORTED")
     (by decide) (by intro s h; cases h) (by decide) (by decide) _⟩

/-- C4: the carbon analyzer estimates bytes as HTML length plus 15360 per
counted resource, converts to grams by `bytes / 2^30 * 0.81 * 1000`
(rounded to four decimals by `toFixed`), grades by the thresholds
0.1 / 0.5 / 1.0 / 2.5, and on HTML length 50000 with 4 resources reports
111440 bytes, 0.0841 grams, grade A+. -/
theorem C4_carbon_model :
    (∀ h r : ℕ, estimatedTotalBytes h r = h + r * 15360)
    ∧ (∀ b : ℚ, calculateCarbon b = toFixed4 (b / 2 ^ 30 * (81 / 100) * 1000))
    ∧ (∀ c : ℚ,
        (gradeCarbon c = .APlus ↔ c < 1 / 10)
        ∧ (gradeCarbon c = .A ↔ 1 / 10 ≤ c ∧ c < 1 / 2)
        ∧ (gradeCarbon c = .B ↔ 1 / 2 ≤ c ∧ c < 1)
        ∧ (gradeCarbon c = .C ↔ 1 ≤ c ∧ c < 5 / 2)
        ∧ (gradeCarbon c = .D ↔ 5 / 2 ≤ c))
    ∧ estimatedTotalBytes 50000 4 = 111440
    ∧ analyzeCarbon 50000 4 = (841 / 10000, .APlus) := by
  refine ⟨?_, ?_, ?_, by decide, ?_⟩
  · intro h r
    unfold estimatedTotalBytes
    omega
  · intro b
    unfold calculateCarbon
    norm_num
  · intro c
    unfold gradeCarbon
    split_ifs with h1 h2 h3 h4 <;>
      refine ⟨?_, ?_, ?_, ?_, ?_⟩ <;> simp <;>
      first
        | trivial
        | linarith
        | (rintro ⟨hx, hx2⟩; linarith)
        | (intro hx; linarith)
        | (intro hx hx2; linarith)
        | (constructor <;> linarith)
  · have hc : calculateCarbon ((estimatedTotalBytes 50000 4 : ℕ) : ℚ)
        = 841 / 10000 := by
      norm_num [calculateCarbon, toFixed4, estimatedTotalBytes]
    have hg : gradeCarbon (841 / 10000) = CarbonGrade.APlus := by
      norm_num [gradeCarbon]
    simp only [analyzeCarbon, hc, hg]

/-- C5: the accessibility score is `max(0, 100 − 15 × issueCount)` where
`issueCount` counts the triggered issue categories, not the offending
elements; 3 alt-less images, 1 empty button, 0 unlabeled inputs and a
missing `lang` trigger 3 categories and score 55. -/
theorem C5_a11y_score :
    (∀ (i b n : ℕ) (lang : Option String),
        (analyzeA11y i b n lang).1 =
          max 0 (100 - 15 * ((if 0 < i then 1 else 0) + (if 0 < b then 1 else 0)
            + (if 0 < n then 1 else 0)
            + (if (match lang with | some v => v == "" | none => true) = true
                then 1 else 0) : ℤ)))
    ∧ (analyzeA11y 3 1 0 none).1 = 55
    ∧ (analyzeA11y 3 1 0 none).2.length = 3 := by
  refine ⟨?_, by decide, by decide⟩
  intro i b n lang
  unfold analyzeA11y
  split_ifs <;> simp

/-- C6: the SEO analyzer emits the critical missing-title insight when the
title has length 0, no title-length insight at length 45, and the too-long
warning at length 80. -/
theorem C6_seo_title_findings (d : SeoData) :
    (d.title.length = 0 →
      SeoInsight.missingTitle ∈ seoInsights d
        ∧ insightSeverity .missingTitle = .critical)
    ∧ (d.title.length = 45 →
      SeoInsight.missingTitle ∉ seoInsights d
        ∧ SeoInsight.titleShort ∉ seoInsights d
        ∧ SeoInsight.titleLong ∉ seoInsights d)
    ∧ (d.title.length = 80 →
      SeoInsight.titleLong ∈ seoInsights d
        ∧ insightSeverity .titleLong = .warning) := by
  refine ⟨?_, ?_, ?_⟩
  · intro h
    have ht : d.title = "" := by
      cases he : d.title with
      | mk cs =>
        rw [he] at h
        cases cs with
        | nil => rfl
        | cons c cs => simp [String.length] at h
    refine ⟨?_, rfl⟩
    simp [seoInsights, ht]
  · intro h
    have ht : (d.title == "") = false := by
      rw [beq_eq_false_iff_ne]
      intro he
      rw [he] at h
      simp at h
    unfold seoInsights
    rw [ht, h]
    refine ⟨?_, ?_, ?_⟩ <;> simp <;> split_ifs <;> simp
  · intro h
    have ht : (d.title == "") = false := by
      rw [beq_eq_false_iff_ne]
      intro he
      rw [he] at h
      simp at h
    unfold seoInsights
    rw [ht, h]
    refine ⟨?_, rfl⟩
    simp

/-- C6 witness: concrete documents with titles of length 0, 45 and 80. -/
theorem C6_seo_title_findings_witness :
    (SeoInsight.missingTitle ∈ seoInsights
        { title := "", description := "", canonical := "", h1 := [],
          viewport := "" }
      ∧ insightSeverity .missingTitle = .critical)
    ∧ (SeoInsight.missingTitle ∉ seoInsights
        { title := "A forty-five character page title, hmm, yeah.",
          description := "", canonical := "", h1 := [], viewport := "" }
      ∧ SeoInsight.titleShort ∉ seoInsights
        { title := "A forty-five character page title, hmm, yeah.",
          description := "", canonical := "", h1 := [], viewport := "" }
      ∧ SeoInsight.titleLong ∉ seoInsights
        { title := "A forty-five character page title, hmm, yeah.",
          description := "", canonical := "", h1 := [], viewport := "" })
    ∧ (SeoInsight.titleLong ∈ seoInsights
        { title := "This page title is eighty characters long, substantially over the safe maximum..",
          description := "", canonical := "", h1 := [], viewport := "" }
      ∧ insightSeverity .titleLong = .warning) :=
  ⟨C6_seo_title_findings _ |>.1 (by decide),
   C6_seo_title_findings _ |>.2.1 (by decide),
   C6_seo_title_findings _ |>.2.2 (by decide)⟩

/-- C7 counterexample: on a failed fetch the SEO analyzer re-throws (its
result is an error, not a finding), and the message it propagates is not
the `unavailable: <cause>` finding the claim describes. -/
theorem C7_counterexample_analyzer_rethrows :
    analyzeSEOFrom (.error "timeout of 10000ms exceeded")
        = .error "SEO Analysis failed: timeout of 10000ms exceeded"
      ∧ "SEO Analysis failed: timeout of 10000ms exceeded"
          ≠ "unavailable: timeout of 10000ms exceeded" := by
  exact ⟨rfl, by decide⟩

/-- C7 (amended): on a failed fetch each analyzer throws an error labelled
`<analyzer> failed: <cause>`; the scan wrapper catches it and renders the
analyzer's contribution as a failure line carrying the cause, never
re-throwing, so the invoked checks still render. -/
theorem C7_fetch_failure_contained :
    (∀ cause : String,
        analyzeSEOFrom (.error cause)
            = .error ("SEO Analysis failed: " ++ cause)
          ∧ runSEO (.error cause)
            = .failed ("SEO Analysis failed: " ++ cause))
    ∧ (∀ cause : String,
        analyzeCarbonFrom (.error cause)
            = .error ("Carbon analysis failed: " ++ cause)
          ∧ runCarbon (.error cause)
            = .failed ("Carbon analysis failed: " ++ cause)) :=
  ⟨fun _ => ⟨rfl, rfl⟩, fun _ => ⟨rfl, rfl⟩⟩

/-- C8 counterexample: the node wrapper's dispatcher sends an unrecognized
selector to the tech scan, not the full scan; and `rbl`, outside the
claim's enumeration, runs its own single scan in the shell dispatcher. -/
theorem C8_counterexample_fallback_not_full :
    wrapperDispatch "bogus" = ScanTask.tech
      ∧ ScanTask.tech ≠ ScanTask.full
      ∧ shellDispatch "rbl" = ScanTask.rbl
      ∧ ScanTask.rbl ≠ ScanTask.full := by
  refine ⟨rfl, by decide, rfl, by decide⟩

/-- C8 (amended): the shell dispatcher recognizes nine selectors (including
`rbl`) and falls back to the full scan on anything else; the node wrapper
recognizes five selectors and falls back to the tech scan on anything
else (including `full` itself). -/
theorem C8_dispatch_fallbacks :
    (∀ mode : String,
        mode ∉ (["tech", "ping", "dns", "ssl", "seo", "rbl", "carbon",
          "a11y", "links"] : List String) →
        shellDispatch mode = .full)
    ∧ (∀ mode : String,
        mode ∉ (["seo", "carbon", "a11y", "links", "wp-scan"] : List String) →
        wrapperDispatch mode = .tech) := by
  constructor
  · intro mode h
    simp only [List.mem_cons, List.not_mem_nil, or_false, not_or] at h
    obtain ⟨h1, h2, h3, h4, h5, h6, h7, h8, h9⟩ := h
    simp [shellDispatch, beq_iff_eq, h1, h2, h3, h4, h5, h6, h7, h8, h9]
  · intro mode h
    simp only [List.mem_cons, List.not_mem_nil, or_false, not_or] at h
    obtain ⟨h1, h2, h3, h4, h5⟩ := h
    simp [wrapperDispatch, beq_iff_eq, h1, h2, h3, h4, h5]

/-- C8 witness: the unrecognized selector `bogus` in each dispatcher. -/
theorem C8_dispatch_fallbacks_witness :
    shellDispatch "bogus" = ScanTask.full
      ∧ wrapperDispatch "bogus" = ScanTask.tech :=
  ⟨C8_dispatch_fallbacks.1 "bogus" (by decide),
   C8_dispatch_fallbacks.2 "bogus" (by decide)⟩

end DomainSuite
